import Mathlib

/-!
Verification of the catalog ingestion pipeline (populate.js) of the
bookreview repository: a shallow embedding of the script's data model,
Normalizer (`transformBookData`), Source Client (`fetchGoogleBooks`),
and Orchestrator (`main`), with theorems settling the specified
properties.

JavaScript conventions modelled explicitly:
  - a possibly-absent field is `Option`;
  - JS truthiness of a string value: `undefined` and `""` are falsy;
  - JS truthiness of an array value: any array (even `[]`) is truthy;
  - a thrown `TypeError` (e.g. calling a method of `undefined`) is an
    `Except.error`.
-/

deriving instance DecidableEq for Except

namespace Populate

/-- One entry of `volumeInfo.industryIdentifiers`: an identifier typed by
scheme (`ISBN_13` or `ISBN_10`). -/
structure IndustryIdentifier where
  type : String
  identifier : String
deriving DecidableEq

/-- The `volumeInfo` part of a raw Google Books item: every field may be
absent, mirroring the untyped JSON. `imageLinksThumbnail` models
`imageLinks?.thumbnail`. -/
structure VolumeInfo where
  title : Option String := none
  authors : Option (List String) := none
  industryIdentifiers : Option (List IndustryIdentifier) := none
  description : Option String := none
  categories : Option (List String) := none
  publishedDate : Option String := none
  imageLinksThumbnail : Option String := none
deriving DecidableEq

/-- A raw Google Books item: the script only reads `item.volumeInfo`. -/
structure BookItem where
  volumeInfo : VolumeInfo
deriving DecidableEq

/-- A row of the `books` table as built by `transformBookData`. -/
structure BookRow where
  title : String
  author : String
  isbn : String
  description : String
  genre : String
  publication_date : String
  cover_image : Option String
deriving DecidableEq

/-- JS truthiness test for a possibly-absent string: `!x` is true exactly
when the field is absent or the empty string. -/
def jsFalsyStr (x : Option String) : Bool :=
  match x with
  | none => true
  | some s => s == ""

/-- JS truthiness test for a possibly-absent array: only absence is falsy;
an empty array is truthy. -/
def jsFalsyList {α : Type} (x : Option (List α)) : Bool :=
  x.isNone

/-- Embeds `vol.industryIdentifiers?.find((id) => id.type === t)`:
the first identifier entry of the given scheme, if any. -/
def findIsbn (vol : VolumeInfo) (t : String) : Option IndustryIdentifier :=
  (vol.industryIdentifiers.getD []).find? (fun id => id.type == t)

/-- The validation guard of `transformBookData`:
`!vol.title || !vol.authors || (!isbn13 && !isbn10)`. -/
def invalidVol (vol : VolumeInfo) : Bool :=
  jsFalsyStr vol.title || jsFalsyList vol.authors ||
    ((findIsbn vol "ISBN_13").isNone && (findIsbn vol "ISBN_10").isNone)

/-- Embeds the publication-date derivation of `transformBookData`:
default `1970-01-01`; a truthy `publishedDate` of length 4 gets
`-01-01` appended, length 7 gets `-01` appended, length at least 10 is
truncated to its first 10 characters, and any other length falls through
to the default. -/
def derivePublicationDate (pd : Option String) : String :=
  match pd with
  | none => "1970-01-01"
  | some s =>
    if s = "" then "1970-01-01"
    else if s.length = 4 then s ++ "-01-01"
    else if s.length = 7 then s ++ "-01"
    else if s.length ≥ 10 then s.take 10
    else "1970-01-01"

/-- The characters before the first space: the first element of a
split-on-space. -/
def firstWordChars : List Char → List Char
  | [] => []
  | c :: cs => if c = ' ' then [] else c :: firstWordChars cs

/-- Embeds `s.toLowerCase().split(' ')[0]`: lowercase every character,
then keep the prefix before the first space (the first field of the
split). -/
def jsFirstWord (s : String) : String :=
  String.mk (firstWordChars (s.data.map Char.toLower))

/-- Embeds the genre derivation
`vol.categories ? vol.categories[0].toLowerCase().split(' ')[0] : 'general'`.
A present-but-empty category array is truthy in JS, so `categories[0]`
is `undefined` and `.toLowerCase()` throws a `TypeError`, modelled as an
`Except.error`. -/
def deriveGenre (cats : Option (List String)) : Except String String :=
  match cats with
  | none => Except.ok "general"
  | some l =>
    match l.head? with
    | none => Except.error "TypeError: categories[0] is undefined"
    | some c => Except.ok (jsFirstWord c)

/-- Embeds the per-item arrow function inside `transformBookData`:
returns `ok none` for a skipped (invalid) item, `ok (some row)` for a
transformed item, and `error` when the genre derivation throws. -/
def transformItem (vol : VolumeInfo) : Except String (Option BookRow) :=
  let isbn13 := findIsbn vol "ISBN_13"
  let isbn10 := findIsbn vol "ISBN_10"
  if invalidVol vol then Except.ok none
  else
    match deriveGenre vol.categories with
    | Except.error e => Except.error e
    | Except.ok genre =>
      Except.ok (some
        { title := vol.title.getD ""
          author := String.intercalate ", " (vol.authors.getD [])
          isbn :=
            match isbn13 with
            | some e => e.identifier
            | none =>
              match isbn10 with
              | some e => e.identifier
              | none => ""
          description :=
            match vol.description with
            | some d => if d = "" then "No description available." else d
            | none => "No description available."
          genre := genre
          publication_date := derivePublicationDate vol.publishedDate
          cover_image :=
            match vol.imageLinksThumbnail with
            | some u => if u = "" then none else some u
            | none => none })

/-- Embeds the JS `googleBooks.map(...)` step: applies `transformItem` to
each item in order, propagating the first thrown error. -/
def mapTransform : List BookItem → Except String (List (Option BookRow))
  | [] => Except.ok []
  | it :: rest =>
    match transformItem it.volumeInfo with
    | Except.error e => Except.error e
    | Except.ok r =>
      match mapTransform rest with
      | Except.error e => Except.error e
      | Except.ok rs => Except.ok (r :: rs)

/-- Embeds `transformBookData`: map each raw item through the per-item
transformation, then `.filter(Boolean)` the `null` entries out. -/
def transformBookData (googleBooks : List BookItem) : Except String (List BookRow) :=
  match mapTransform googleBooks with
  | Except.error e => Except.error e
  | Except.ok rs => Except.ok (rs.filterMap id)

/-- The possible outcomes of the single outbound HTTP call made by
`fetchGoogleBooks` at a given `startIndex`: a success response whose JSON
body may or may not carry an `items` array, a non-success HTTP response,
or a transport failure. -/
inductive FetchOutcome where
  | success (items : Option (List BookItem))
  | httpError (status : Nat) (message : String)
  | transportFailure (message : String)
deriving DecidableEq

/-- True exactly on the two failure outcomes (non-success response or
transport failure). -/
def FetchOutcome.isFailure : FetchOutcome → Bool
  | success _ => false
  | httpError _ _ => true
  | transportFailure _ => true

/-- Embeds `fetchGoogleBooks`: on success it returns `data.items || []`;
on a non-success response it throws, and on a transport failure the fetch
throws — but both throws land in the surrounding `catch`, which logs the
error and returns `[]`. So every failure is surfaced to the caller as an
empty page, indistinguishable from source exhaustion. -/
def fetchGoogleBooks (outcome : FetchOutcome) : List BookItem :=
  match outcome with
  | FetchOutcome.success items => items.getD []
  | FetchOutcome.httpError _ _ => []
  | FetchOutcome.transportFailure _ => []

/-- `booksPerPage` in `main` (also `maxResults` in `fetchGoogleBooks`). -/
def booksPerPage : Nat := 40

/-- `totalBooksToFetch` in `main`. -/
def totalBooksToFetch : Nat := 200

/-- `Math.ceil(totalBooksToFetch / booksPerPage)`: the number of loop
iterations of `main`. -/
def numPages (total perPage : Nat) : Nat := (total + perPage - 1) / perPage

/-- Embeds the fetch loop of `main`. The external world is the function
`world` from a `startIndex` to that request's outcome. Arguments:
remaining iterations (initially `numPages totalBooksToFetch booksPerPage`),
the loop counter `i`, the accumulator `allBooksToInsert`. Returns the list
of `startIndex` values actually fetched, in order, together with either
the final accumulator or the first uncaught error from
`transformBookData`. -/
def mainLoop (world : Nat → FetchOutcome) :
    Nat → Nat → List BookRow → List Nat × Except String (List BookRow)
  | 0, _, acc => ([], Except.ok acc)
  | remaining + 1, i, acc =>
    let offset := i * booksPerPage
    let googleBooks := fetchGoogleBooks (world offset)
    if googleBooks.length = 0 then ([offset], Except.ok acc)
    else
      match transformBookData googleBooks with
      | Except.error e => ([offset], Except.error e)
      | Except.ok booksForSupabase =>
        let rest := mainLoop world remaining (i + 1) (acc ++ booksForSupabase)
        (offset :: rest.1, rest.2)

/-- Modelled from the spec: the persistent store is external to the
repository (a managed backend consumed through its client library). Per
the spec, the `books` table has a unique constraint on `isbn` and the
write carries an explicit ignore-on-conflict directive: each incoming row
whose `isbn` already exists in the store is skipped (the existing row is
kept, the batch is not aborted); every other row is inserted and counted
as accepted. Returns the store after the write and the accepted count. -/
def storeInsertIgnore (existing : List BookRow) : List BookRow → List BookRow × Nat
  | [] => (existing, 0)
  | r :: rest =>
    if existing.any (fun e => e.isbn == r.isbn) then
      storeInsertIgnore existing rest
    else
      let next := storeInsertIgnore (existing ++ [r]) rest
      (next.1, next.2 + 1)

/-- The three process-environment credentials read at the top of the
script. -/
structure Env where
  supabaseUrl : Option String
  supabaseServiceKey : Option String
  googleBooksApiKey : Option String

/-- The startup credential check:
`if (!supabaseUrl || !supabaseServiceKey || !googleBooksApiKey)`. -/
def missingKeys (env : Env) : Bool :=
  jsFalsyStr env.supabaseUrl || jsFalsyStr env.supabaseServiceKey ||
    jsFalsyStr env.googleBooksApiKey

/-- Everything observable about one run of the script. `exitCode` is the
process exit code; `offsets` lists the `startIndex` of every outbound
fetch, in order; `insertCalled` records whether the store write was
invoked, `conflictKey` the conflict parameter passed to it and
`submittedBatch` its payload; `storeAfter` and `acceptedCount` are the
store's state and accepted count after the write (per the spec-modelled
store); `successCount` is the count printed by the success message, if
any; `errorMsg` is the logged error, if any. -/
structure MainResult where
  exitCode : Nat
  offsets : List Nat
  insertCalled : Bool
  conflictKey : Option String
  submittedBatch : List BookRow
  storeAfter : List BookRow
  acceptedCount : Nat
  successCount : Option Nat
  errorMsg : Option String
deriving DecidableEq

/-- Embeds `main` (plus the top-level credential check and the final
`main().catch(console.error)`), against: the process environment, the
external world of fetch outcomes, the store contents before the run, and
`storeFail` — `some m` when the store itself fails the write call with
error message `m`, `none` when the write proceeds under the spec-modelled
conflict-ignore semantics.

Paths, as in the script: missing credentials exit with code 1 before any
network call; an error thrown inside the loop rejects `main()` and is
logged by `.catch` (no insert, exit code 0); an empty accumulator logs
and returns; otherwise the batch is inserted with `onConflict: isbn` and
the script prints `Successfully processed N books!` with `N` the
submitted batch length, or logs the store error. -/
def runMain (env : Env) (world : Nat → FetchOutcome) (existing : List BookRow)
    (storeFail : Option String) : MainResult :=
  if missingKeys env then
    { exitCode := 1, offsets := [], insertCalled := false, conflictKey := none
      submittedBatch := [], storeAfter := existing, acceptedCount := 0
      successCount := none
      errorMsg := some "Error: Missing API keys in .env file." }
  else
    match mainLoop world (numPages totalBooksToFetch booksPerPage) 0 [] with
    | (offs, Except.error e) =>
      { exitCode := 0, offsets := offs, insertCalled := false
        conflictKey := none, submittedBatch := [], storeAfter := existing
        acceptedCount := 0, successCount := none, errorMsg := some e }
    | (offs, Except.ok allBooksToInsert) =>
      if allBooksToInsert.length = 0 then
        { exitCode := 0, offsets := offs, insertCalled := false
          conflictKey := none, submittedBatch := [], storeAfter := existing
          acceptedCount := 0, successCount := none, errorMsg := none }
      else
        match storeFail with
        | some m =>
          { exitCode := 0, offsets := offs, insertCalled := true
            conflictKey := some "isbn", submittedBatch := allBooksToInsert
            storeAfter := existing, acceptedCount := 0, successCount := none
            errorMsg := some m }
        | none =>
          { exitCode := 0, offsets := offs, insertCalled := true
            conflictKey := some "isbn", submittedBatch := allBooksToInsert
            storeAfter := (storeInsertIgnore existing allBooksToInsert).1
            acceptedCount := (storeInsertIgnore existing allBooksToInsert).2
            successCount := some allBooksToInsert.length, errorMsg := none }

/-! Concrete fixtures: raw records, environments, and external worlds used
by the witness and counterexample theorems below. -/

/-- A well-formed raw record carrying every field, both identifier
schemes, a two-word category, and a year-only publication date. -/
def volGood : VolumeInfo :=
  { title := some "Dune"
    authors := some ["Frank Herbert"]
    industryIdentifiers :=
      some [⟨"ISBN_10", "0441013597"⟩, ⟨"ISBN_13", "9780441013593"⟩]
    description := some "A desert planet."
    categories := some ["Science Fiction"]
    publishedDate := some "1965"
    imageLinksThumbnail := some "http://img" }

/-- The row `transformBookData` produces from `volGood`. -/
def rowGood : BookRow :=
  { title := "Dune", author := "Frank Herbert", isbn := "9780441013593"
    description := "A desert planet.", genre := "science"
    publication_date := "1965-01-01", cover_image := some "http://img" }

/-- A raw record whose author list is present but empty: it has no
author, yet the JS guard `!vol.authors` does not reject it, because an
empty array is truthy. -/
def volEmptyAuthors : VolumeInfo :=
  { title := some "T"
    authors := some []
    industryIdentifiers := some [⟨"ISBN_13", "9780000000002"⟩] }

/-- The row `transformBookData` produces from `volEmptyAuthors`: note the
empty `author` field. -/
def rowEmptyAuthors : BookRow :=
  { title := "T", author := "", isbn := "9780000000002"
    description := "No description available.", genre := "general"
    publication_date := "1970-01-01", cover_image := none }

/-- A raw record passing the minimum-fields guard whose category list is
present but empty: `vol.categories` is truthy, so the code evaluates
`vol.categories[0].toLowerCase()` and throws. -/
def volEmptyCats : VolumeInfo :=
  { title := some "T"
    authors := some ["A"]
    industryIdentifiers := some [⟨"ISBN_13", "9780000000002"⟩]
    categories := some [] }

/-- A raw record with title and author but no identifier of either
scheme: it fails validation and is skipped. -/
def volNoIsbn : VolumeInfo :=
  { title := some "T", authors := some ["A"] }

/-- An environment with all three credentials present and non-empty. -/
def envGood : Env := ⟨some "http://supabase", some "service-key", some "gkey"⟩

/-- An environment whose store endpoint is absent. -/
def envMissing : Env := ⟨none, some "service-key", some "gkey"⟩

/-- A world where the first request succeeds with one valid record and
every later request fails at the transport layer. -/
def worldOneGoodThenFail : Nat → FetchOutcome := fun o =>
  if o = 0 then FetchOutcome.success (some [⟨volGood⟩])
  else FetchOutcome.transportFailure "ECONNRESET"

/-- A world where the first request succeeds with one valid record and
every later request returns an empty page (source exhausted). -/
def worldOneGoodThenEmpty : Nat → FetchOutcome := fun o =>
  if o = 0 then FetchOutcome.success (some [⟨volGood⟩])
  else FetchOutcome.success (some [])

/-- A world where every request returns a non-empty page containing a
single invalid record, so the source is never exhausted but the
accumulated validated count never grows. -/
def worldAllInvalid : Nat → FetchOutcome := fun _ =>
  FetchOutcome.success (some [⟨volNoIsbn⟩])

/-- A world where every request fails at the transport layer. -/
def worldAllFail : Nat → FetchOutcome := fun _ =>
  FetchOutcome.transportFailure "ECONNRESET"

/-! Helper lemmas shared by the claim theorems. -/

/-- The genre derivation throws exactly on a present-but-empty category
list. -/
theorem deriveGenre_ok_of_ne (cats : Option (List String)) (hc : cats ≠ some []) :
    ∃ g, deriveGenre cats = Except.ok g := by
  rcases cats with _ | (_ | ⟨c, cs⟩)
  · exact ⟨"general", rfl⟩
  · exact absurd rfl hc
  · exact ⟨jsFirstWord c, rfl⟩

/-- Inversion for a successful per-item transformation: the produced row
is determined field by field from the source record. -/
theorem transformItem_ok_some (vol : VolumeInfo) (r : BookRow)
    (h : transformItem vol = Except.ok (some r)) :
    invalidVol vol = false ∧
    deriveGenre vol.categories = Except.ok r.genre ∧
    r.title = vol.title.getD "" ∧
    r.author = String.intercalate ", " (vol.authors.getD []) ∧
    (r.isbn = match findIsbn vol "ISBN_13" with
      | some e => e.identifier
      | none =>
        match findIsbn vol "ISBN_10" with
        | some e => e.identifier
        | none => "") ∧
    r.publication_date = derivePublicationDate vol.publishedDate := by
  unfold transformItem at h
  by_cases hv : invalidVol vol = true
  · rw [if_pos hv] at h
    exact absurd h (by simp)
  · rw [if_neg hv] at h
    rcases hg : deriveGenre vol.categories with e | g
    · rw [hg] at h
      exact absurd h (by simp)
    · rw [hg] at h
      simp only [Except.ok.injEq, Option.some.injEq] at h
      subst h
      refine ⟨by simpa using hv, rfl, rfl, rfl, rfl, rfl⟩

/-- A successful per-item transformation exists exactly when the record
passes the guard and its category list is not present-but-empty. -/
theorem transformItem_valid (vol : VolumeInfo) (h : invalidVol vol = false)
    (hc : vol.categories ≠ some []) :
    ∃ r, transformItem vol = Except.ok (some r) := by
  obtain ⟨g, hg⟩ := deriveGenre_ok_of_ne vol.categories hc
  rcases hr : transformItem vol with e | (_ | r)
  · exfalso
    unfold transformItem at hr
    rw [if_neg (by simp [h]), hg] at hr
    exact absurd hr (by simp)
  · exfalso
    unfold transformItem at hr
    rw [if_neg (by simp [h]), hg] at hr
    exact absurd hr (by simp)
  · exact ⟨r, hr ▸ rfl⟩

/-! Claim theorems: the Record Normalizer. -/

/-- C3: for every publication-date string present on a source record,
the derived date is: length 4 appends `-01-01`, length 7 appends `-01`,
length at least 10 truncates to the first 10 characters, and any other
length yields the fixed default `1970-01-01`, which is also the result
when the date is absent; the canonical row carries exactly this derived
value. -/
theorem publication_date_rule :
    (∀ (vol : VolumeInfo) (r : BookRow), transformItem vol = Except.ok (some r) →
      r.publication_date = derivePublicationDate vol.publishedDate) ∧
    (∀ s : String,
      (s.length = 4 → derivePublicationDate (some s) = s ++ "-01-01") ∧
      (s.length = 7 → derivePublicationDate (some s) = s ++ "-01") ∧
      (10 ≤ s.length → derivePublicationDate (some s) = s.take 10) ∧
      (s.length ≠ 4 → s.length ≠ 7 → s.length < 10 →
        derivePublicationDate (some s) = "1970-01-01")) ∧
    derivePublicationDate none = "1970-01-01" := by
  refine ⟨fun vol r h => (transformItem_ok_some vol r h).2.2.2.2.2, fun s => ?_, rfl⟩
  refine ⟨?_, ?_, ?_, ?_⟩
  · intro h
    have hs : s ≠ "" := by intro e; rw [e] at h; exact absurd h (by decide)
    simp [derivePublicationDate, hs, h]
  · intro h
    have hs : s ≠ "" := by intro e; rw [e] at h; exact absurd h (by decide)
    simp [derivePublicationDate, hs, h]
  · intro h
    have hs : s ≠ "" := by intro e; rw [e] at h; exact absurd h (by decide)
    have h4 : s.length ≠ 4 := by omega
    have h7 : s.length ≠ 7 := by omega
    simp [derivePublicationDate, hs, h4, h7, h]
  · intro h4 h7 hlt
    by_cases hs : s = ""
    · simp [derivePublicationDate, hs]
    · have h10 : ¬ 10 ≤ s.length := by omega
      simp [derivePublicationDate, hs, h4, h7, h10]

/-- Witness for C3 at the year-only date string `2021`. -/
theorem publication_date_rule_witness :
    derivePublicationDate (some "2021") = "2021" ++ "-01-01" :=
  (publication_date_rule.2.1 "2021").1 (by decide)

/-- C4: on a successfully transformed record, the canonical `isbn` is the
first 13-digit-scheme identifier when one exists, and otherwise the first
10-digit-scheme identifier. -/
theorem isbn_priority (vol : VolumeInfo) (r : BookRow)
    (h : transformItem vol = Except.ok (some r)) :
    (∀ e, findIsbn vol "ISBN_13" = some e → r.isbn = e.identifier) ∧
    (findIsbn vol "ISBN_13" = none →
      ∀ e, findIsbn vol "ISBN_10" = some e → r.isbn = e.identifier) := by
  obtain ⟨-, -, -, -, hisbn, -⟩ := transformItem_ok_some vol r h
  constructor
  · intro e he
    rw [hisbn, he]
  · intro h13 e he
    rw [hisbn, h13, he]

/-- Witness for C4 at `volGood`, which carries both schemes: the 13-digit
value wins. -/
theorem isbn_priority_witness : rowGood.isbn = "9780441013593" :=
  (isbn_priority volGood rowGood (by decide)).1 ⟨"ISBN_13", "9780441013593"⟩ (by decide)

/-- C2 is false as stated: `volEmptyAuthors` has an author list that is
present but empty — it is missing every author — yet the Normalizer does
not exclude it (an empty JS array is truthy, so the guard `!vol.authors`
passes) and produces a canonical record with an empty `author` field. -/
theorem min_fields_counterexample :
    volEmptyAuthors.authors = some [] ∧
    transformBookData [⟨volEmptyAuthors⟩] ≠ Except.ok [] ∧
    transformBookData [⟨volEmptyAuthors⟩] = Except.ok [rowEmptyAuthors] :=
  ⟨rfl, by decide, by decide⟩

/-- C2 amended: a record is excluded exactly when its title is absent or
empty, its author-list field is absent (a present-but-empty list
passes), or no identifier of either scheme is present; every other
record yields exactly one canonical record, provided its category list
is not present-but-empty (that case throws instead, see C5). -/
theorem min_fields_amended (vol : VolumeInfo) :
    (invalidVol vol = true → transformBookData [⟨vol⟩] = Except.ok []) ∧
    (invalidVol vol = false → vol.categories ≠ some [] →
      ∃ r, transformBookData [⟨vol⟩] = Except.ok [r]) := by
  constructor
  · intro h
    simp [transformBookData, mapTransform, transformItem, h]
  · intro h hc
    obtain ⟨r, hr⟩ := transformItem_valid vol h hc
    exact ⟨r, by simp [transformBookData, mapTransform, hr]⟩

/-- Witness for the amended C2 at the complete record `volGood`. -/
theorem min_fields_amended_witness :
    ∃ r, transformBookData [⟨volGood⟩] = Except.ok [r] :=
  (min_fields_amended volGood).2 (by decide) (by decide)

/-- C5 is false as stated: `volEmptyCats` passes validation and has no
category (its category list is present but empty), so the claim demands
genre `general`; instead the transformation throws a `TypeError`
(`vol.categories` is truthy, so the code reads `vol.categories[0]`,
which is `undefined`, and calls `.toLowerCase()` on it), and no
canonical record at all is produced. -/
theorem genre_counterexample :
    invalidVol volEmptyCats = false ∧
    transformBookData [⟨volEmptyCats⟩] =
      Except.error "TypeError: categories[0] is undefined" :=
  ⟨by decide, by decide⟩

/-- C5 amended: on a successfully transformed record, genre is the first
category string lowercased and truncated before its first space, and the
default token `general` when the category field is absent; a validated
record whose category list is present but empty instead makes the batch
transformation throw. -/
theorem genre_rule_amended (vol : VolumeInfo) :
    (∀ r, transformItem vol = Except.ok (some r) →
      (vol.categories = none → r.genre = "general") ∧
      (∀ c cs, vol.categories = some (c :: cs) → r.genre = jsFirstWord c)) ∧
    (invalidVol vol = false → vol.categories = some [] →
      transformBookData [⟨vol⟩] =
        Except.error "TypeError: categories[0] is undefined") := by
  constructor
  · intro r h
    obtain ⟨-, hg, -⟩ := transformItem_ok_some vol r h
    constructor
    · intro hc
      rw [hc] at hg
      simpa [deriveGenre] using hg.symm
    · intro c cs hc
      rw [hc] at hg
      simpa [deriveGenre] using hg.symm
  · intro h hc
    simp [transformBookData, mapTransform, transformItem, h, hc, deriveGenre]

/-- Witness for the amended C5 at `volGood`, whose first category is
`Science Fiction`: the derived genre is its lowercased first word. -/
theorem genre_rule_amended_witness : rowGood.genre = jsFirstWord "Science Fiction" :=
  ((genre_rule_amended volGood).1 rowGood (by decide)).2 "Science Fiction" [] (by decide)

/-- Inversion for the mapping stage: a successful map produces one output
slot per input record, each coming from that record. -/
theorem mapTransform_spec (items : List BookItem) (os : List (Option BookRow))
    (h : mapTransform items = Except.ok os) :
    os.length = items.length ∧
    ∀ o ∈ os, ∃ it ∈ items, transformItem it.volumeInfo = Except.ok o := by
  induction items generalizing os with
  | nil =>
    unfold mapTransform at h
    simp only [Except.ok.injEq] at h
    subst h
    simp
  | cons it rest ih =>
    unfold mapTransform at h
    rcases h1 : transformItem it.volumeInfo with e | r
    · rw [h1] at h
      exact absurd h (by simp)
    · rw [h1] at h
      rcases h2 : mapTransform rest with e | rs
      · rw [h2] at h
        exact absurd h (by simp)
      · rw [h2] at h
        simp only [Except.ok.injEq] at h
        subst h
        obtain ⟨hlen, hmem⟩ := ih rs h2
        refine ⟨by simp [hlen], ?_⟩
        intro o ho
        rcases List.mem_cons.mp ho with rfl | ho
        · exact ⟨it, List.mem_cons_self .., h1⟩
        · obtain ⟨it2, hit2, h3⟩ := hmem o ho
          exact ⟨it2, List.mem_cons_of_mem _ hit2, h3⟩

/-- C10: a successful batch transformation emits at most one canonical
record per raw record — the output is never longer than the input, and
every output row is the transform of some input record; nothing is
merged or fabricated. -/
theorem normalizer_no_merge (items : List BookItem) (rows : List BookRow)
    (h : transformBookData items = Except.ok rows) :
    rows.length ≤ items.length ∧
    ∀ r ∈ rows, ∃ it ∈ items, transformItem it.volumeInfo = Except.ok (some r) := by
  unfold transformBookData at h
  rcases hm : mapTransform items with e | os
  · rw [hm] at h
    exact absurd h (by simp)
  · rw [hm] at h
    simp only [Except.ok.injEq] at h
    subst h
    obtain ⟨hlen, hmem⟩ := mapTransform_spec items os hm
    constructor
    · exact hlen ▸ List.length_filterMap_le id os
    · intro r hr
      rw [List.mem_filterMap] at hr
      obtain ⟨o, ho, hid⟩ := hr
      obtain ⟨it, hit, h2⟩ := hmem o ho
      cases o with
      | none => exact absurd hid (by simp)
      | some r2 =>
        simp only [id_eq, Option.some.injEq] at hid
        subst hid
        exact ⟨it, hit, h2⟩

/-- Witness for C10 on a singleton batch. -/
theorem normalizer_no_merge_witness :
    ([rowGood] : List BookRow).length ≤ ([⟨volGood⟩] : List BookItem).length :=
  (normalizer_no_merge [⟨volGood⟩] [rowGood] (by decide)).1

/-! Helper lemmas: the fetch loop and the run wrapper. -/

/-- A page with zero records ends the loop at once: the offset just
fetched is the last one and the accumulator is returned unchanged. -/
theorem mainLoop_empty_page (world : Nat → FetchOutcome) (remaining i : Nat)
    (acc : List BookRow) (h : fetchGoogleBooks (world (i * booksPerPage)) = []) :
    mainLoop world (remaining + 1) i acc = ([i * booksPerPage], Except.ok acc) := by
  unfold mainLoop
  simp [h]

/-- A non-empty page whose transformation succeeds appends its rows to
the accumulator and continues at the next page index. -/
theorem mainLoop_step (world : Nat → FetchOutcome) (remaining i : Nat)
    (acc rows : List BookRow)
    (hne : fetchGoogleBooks (world (i * booksPerPage)) ≠ [])
    (ht : transformBookData (fetchGoogleBooks (world (i * booksPerPage))) =
      Except.ok rows) :
    mainLoop world (remaining + 1) i acc =
      ((i * booksPerPage) :: (mainLoop world remaining (i + 1) (acc ++ rows)).1,
        (mainLoop world remaining (i + 1) (acc ++ rows)).2) := by
  conv_lhs => rw [mainLoop]
  rw [if_neg (by simpa [List.length_eq_zero] using hne), ht]

/-- The loop never fetches more pages than its iteration budget. -/
theorem mainLoop_budget (world : Nat → FetchOutcome) :
    ∀ n i acc, (mainLoop world n i acc).1.length ≤ n := by
  intro n
  induction n with
  | zero =>
    intro i acc
    simp [mainLoop]
  | succ m ih =>
    intro i acc
    unfold mainLoop
    by_cases h : (fetchGoogleBooks (world (i * booksPerPage))).length = 0
    · simp [h]
    · rw [if_neg h]
      rcases ht : transformBookData (fetchGoogleBooks (world (i * booksPerPage)))
        with e | rows
      · simp
      · simpa using Nat.succ_le_succ (ih (i + 1) (acc ++ rows))

/-- A run with missing credentials exits with code 1 before anything
else happens. -/
theorem runMain_missing (env : Env) (world : Nat → FetchOutcome)
    (existing : List BookRow) (storeFail : Option String)
    (h : missingKeys env = true) :
    runMain env world existing storeFail =
      { exitCode := 1, offsets := [], insertCalled := false, conflictKey := none
        submittedBatch := [], storeAfter := existing, acceptedCount := 0
        successCount := none
        errorMsg := some "Error: Missing API keys in .env file." } := by
  unfold runMain
  rw [if_pos h]

/-- A run with credentials present whose loop yields a non-empty batch
calls the store write once with that batch, the `isbn` conflict key and
the conflict-ignore semantics, and reports the full batch length. -/
theorem runMain_ok (env : Env) (world : Nat → FetchOutcome)
    (existing rows : List BookRow) (offs : List Nat)
    (h : missingKeys env = false)
    (hl : mainLoop world (numPages totalBooksToFetch booksPerPage) 0 [] =
      (offs, Except.ok rows))
    (hne : rows ≠ []) :
    runMain env world existing none =
      { exitCode := 0, offsets := offs, insertCalled := true
        conflictKey := some "isbn", submittedBatch := rows
        storeAfter := (storeInsertIgnore existing rows).1
        acceptedCount := (storeInsertIgnore existing rows).2
        successCount := some rows.length, errorMsg := none } := by
  unfold runMain
  rw [if_neg (by simp [h]), hl]
  simp [List.length_eq_zero, hne]

/-- A run with credentials present always executes the loop: its offsets
are the loop's offsets and its exit code is 0. -/
theorem runMain_run (env : Env) (world : Nat → FetchOutcome)
    (existing : List BookRow) (storeFail : Option String)
    (h : missingKeys env = false) :
    (runMain env world existing storeFail).offsets =
      (mainLoop world (numPages totalBooksToFetch booksPerPage) 0 []).1 ∧
    (runMain env world existing storeFail).exitCode = 0 := by
  unfold runMain
  rw [if_neg (by simp [h])]
  rcases hl : mainLoop world (numPages totalBooksToFetch booksPerPage) 0 []
    with ⟨offs, e | rows⟩
  · simp
  · by_cases hz : rows.length = 0
    · simp [hz]
    · rcases storeFail with _ | m
      · simp [hz]
      · simp [hz]

/-- Conflict-ignore semantics of the modelled store: a batch write keeps
every existing row (the store grows by appending), the accepted count is
the number of appended rows, and every appended row had no key collision
with the pre-existing store. -/
theorem storeInsertIgnore_spec :
    ∀ (batch existing : List BookRow), ∃ added,
      storeInsertIgnore existing batch = (existing ++ added, added.length) ∧
      ∀ a ∈ added, existing.any (fun e => e.isbn == a.isbn) = false := by
  intro batch
  induction batch with
  | nil =>
    intro existing
    exact ⟨[], by simp [storeInsertIgnore]⟩
  | cons r rest ih =>
    intro existing
    by_cases h : existing.any (fun e => e.isbn == r.isbn) = true
    · obtain ⟨added, heq, hfree⟩ := ih existing
      exact ⟨added, by simp [storeInsertIgnore, h, heq], hfree⟩
    · obtain ⟨added, heq, hfree⟩ := ih (existing ++ [r])
      refine ⟨r :: added, ?_, ?_⟩
      · simp [storeInsertIgnore, h, heq]
      · intro a ha
        rcases List.mem_cons.mp ha with rfl | ha
        · simpa using h
        · have := hfree a ha
          simp only [List.any_append, Bool.or_eq_false_iff] at this
          exact this.1

/-! Claim theorems: the Pipeline Orchestrator. -/

/-- C7: a page with zero records ends fetching at once — the loop emits
no further offset and returns the accumulated records, whatever the
remaining budget — and a run whose loop returns a non-empty batch hands
exactly that batch to the store write. -/
theorem pagination_termination :
    (∀ (world : Nat → FetchOutcome) (remaining i : Nat) (acc : List BookRow),
      fetchGoogleBooks (world (i * booksPerPage)) = [] →
      mainLoop world (remaining + 1) i acc = ([i * booksPerPage], Except.ok acc)) ∧
    (∀ (env : Env) (world : Nat → FetchOutcome) (existing rows : List BookRow)
      (offs : List Nat), missingKeys env = false →
      mainLoop world (numPages totalBooksToFetch booksPerPage) 0 [] =
        (offs, Except.ok rows) →
      rows ≠ [] →
      (runMain env world existing none).insertCalled = true ∧
      (runMain env world existing none).submittedBatch = rows) := by
  refine ⟨mainLoop_empty_page, ?_⟩
  intro env world existing rows offs h hl hne
  rw [runMain_ok env world existing rows offs h hl hne]
  exact ⟨rfl, rfl⟩

/-- Witness for C7: with every fetch empty, the run's first page ends the
loop even though the 200-record target is unmet. -/
theorem pagination_termination_witness :
    mainLoop worldAllFail 5 0 [] = ([0], Except.ok []) :=
  pagination_termination.1 worldAllFail 4 0 [] (by decide)

/-- C8 is false as stated: against a world whose every page is non-empty
but contains only an invalid record, the accumulated validated count
stays 0, far below the target 200, yet the orchestrator stops after
exactly 5 fetches (offsets 0, 40, 80, 120, 160) although the source is
not exhausted — the next fetch would have returned records. It does not
continue until the accumulated count reaches the target. -/
theorem target_termination_counterexample :
    (runMain envGood worldAllInvalid [] none).offsets = [0, 40, 80, 120, 160] ∧
    (runMain envGood worldAllInvalid [] none).submittedBatch = [] ∧
    (runMain envGood worldAllInvalid [] none).insertCalled = false ∧
    fetchGoogleBooks (worldAllInvalid 200) ≠ [] := by
  decide

/-- C8 amended: the orchestrator runs a fixed page budget of
`Math.ceil(totalBooksToFetch / booksPerPage) = 5` iterations — it never
fetches more pages than the budget, and after a non-empty page it issues
the next fetch with the offset advanced by the page size while budget
remains, regardless of the accumulated validated count. -/
theorem page_budget_amended :
    numPages totalBooksToFetch booksPerPage = 5 ∧
    (∀ (world : Nat → FetchOutcome) (n i : Nat) (acc : List BookRow),
      (mainLoop world n i acc).1.length ≤ n) ∧
    (∀ (world : Nat → FetchOutcome) (n i : Nat) (acc rows : List BookRow),
      fetchGoogleBooks (world (i * booksPerPage)) ≠ [] →
      transformBookData (fetchGoogleBooks (world (i * booksPerPage))) =
        Except.ok rows →
      mainLoop world (n + 1) i acc =
        ((i * booksPerPage) :: (mainLoop world n (i + 1) (acc ++ rows)).1,
          (mainLoop world n (i + 1) (acc ++ rows)).2)) :=
  ⟨rfl, mainLoop_budget, mainLoop_step⟩

/-- Witness for the amended C8: one budgeted iteration on a non-empty
page fetches offset 0 and stops when the budget is spent. -/
theorem page_budget_amended_witness :
    mainLoop worldAllInvalid 1 0 [] = ([0], Except.ok []) :=
  page_budget_amended.2.2 worldAllInvalid 0 0 [] [] (by decide) (by decide)

/-- C1 is false as stated: in a world whose first page succeeds with one
valid record and whose second request fails at the transport layer, the
failure is caught (not raised), the run does not terminate as `Failed` —
it exits 0, reports success — and the record fetched before the failure
is persisted. -/
theorem fetch_failure_counterexample :
    (worldOneGoodThenFail (1 * booksPerPage)).isFailure = true ∧
    (runMain envGood worldOneGoodThenFail [] none).insertCalled = true ∧
    (runMain envGood worldOneGoodThenFail [] none).storeAfter = [rowGood] ∧
    (runMain envGood worldOneGoodThenFail [] none).successCount = some 1 ∧
    (runMain envGood worldOneGoodThenFail [] none).exitCode = 0 := by
  decide

/-- C1 amended: a fetch failure (non-success response or transport
failure) is caught inside the Source Client and surfaced as an empty
page, so the orchestrator treats it exactly like source exhaustion: it
stops fetching and proceeds to persist every already-accumulated record
(partial persistence of an interrupted run), rather than failing the
pipeline. -/
theorem fetch_failure_amended :
    (∀ o : FetchOutcome, o.isFailure = true → fetchGoogleBooks o = []) ∧
    (∀ (world : Nat → FetchOutcome) (remaining i : Nat) (acc : List BookRow),
      (world (i * booksPerPage)).isFailure = true →
      mainLoop world (remaining + 1) i acc = ([i * booksPerPage], Except.ok acc)) ∧
    (∀ (env : Env) (world : Nat → FetchOutcome) (existing rows : List BookRow)
      (offs : List Nat), missingKeys env = false →
      mainLoop world (numPages totalBooksToFetch booksPerPage) 0 [] =
        (offs, Except.ok rows) →
      rows ≠ [] →
      (runMain env world existing none).insertCalled = true ∧
      (runMain env world existing none).storeAfter =
        (storeInsertIgnore existing rows).1 ∧
      (runMain env world existing none).successCount = some rows.length ∧
      (runMain env world existing none).exitCode = 0) := by
  refine ⟨?_, ?_, ?_⟩
  · intro o h
    cases o with
    | success items => exact absurd h (by simp [FetchOutcome.isFailure])
    | httpError s m => rfl
    | transportFailure m => rfl
  · intro world remaining i acc h
    apply mainLoop_empty_page
    cases hw : world (i * booksPerPage) with
    | success items => rw [hw] at h; exact absurd h (by simp [FetchOutcome.isFailure])
    | httpError s m => rfl
    | transportFailure m => rfl
  · intro env world existing rows offs h hl hne
    rw [runMain_ok env world existing rows offs h hl hne]
    exact ⟨rfl, rfl, rfl, rfl⟩

/-- Witness for the amended C1: a transport failure on the very first
page ends the loop normally with an empty accumulator. -/
theorem fetch_failure_amended_witness :
    mainLoop worldAllFail 1 0 [] = ([0], Except.ok []) :=
  fetch_failure_amended.2.1 worldAllFail 0 0 [] (by decide)

/-- C9: a credential absent from the environment (or supplied empty, the
JS-falsy case) makes the startup check fail: the process exits with code
1 and issues no fetch — no network activity precedes the exit; with the
check passing, the run proceeds to execute the fetch loop and exits 0. -/
theorem credentials_check (env : Env) (world : Nat → FetchOutcome)
    (existing : List BookRow) (storeFail : Option String) :
    (env.supabaseUrl = none ∨ env.supabaseServiceKey = none ∨
      env.googleBooksApiKey = none → missingKeys env = true) ∧
    (missingKeys env = true →
      runMain env world existing storeFail =
        { exitCode := 1, offsets := [], insertCalled := false, conflictKey := none
          submittedBatch := [], storeAfter := existing, acceptedCount := 0
          successCount := none
          errorMsg := some "Error: Missing API keys in .env file." }) ∧
    (missingKeys env = false →
      (runMain env world existing storeFail).exitCode = 0 ∧
      (runMain env world existing storeFail).offsets =
        (mainLoop world (numPages totalBooksToFetch booksPerPage) 0 []).1) := by
  refine ⟨?_, runMain_missing env world existing storeFail, ?_⟩
  · intro h
    unfold missingKeys jsFalsyStr
    rcases h with h | h | h <;> rw [h] <;> simp
  · intro h
    exact ⟨(runMain_run env world existing storeFail h).2,
      (runMain_run env world existing storeFail h).1⟩

/-- Witness for C9 at an environment missing the store endpoint. -/
theorem credentials_check_witness :
    runMain envMissing worldAllFail [] none =
      { exitCode := 1, offsets := [], insertCalled := false, conflictKey := none
        submittedBatch := [], storeAfter := [], acceptedCount := 0
        successCount := none
        errorMsg := some "Error: Missing API keys in .env file." } :=
  (credentials_check envMissing worldAllFail [] none).2.1 (by decide)

/-- C6 is false as stated: with the store already holding `rowGood` and
the run fetching that same record again, the non-conflicting subset is
empty (accepted count 0, the existing row kept, the batch not aborted),
yet the run's success message reports 1 — the full submitted batch size,
not the accepted count. -/
theorem conflict_report_counterexample :
    (runMain envGood worldOneGoodThenEmpty [rowGood] none).insertCalled = true ∧
    (runMain envGood worldOneGoodThenEmpty [rowGood] none).acceptedCount = 0 ∧
    (runMain envGood worldOneGoodThenEmpty [rowGood] none).storeAfter = [rowGood] ∧
    (runMain envGood worldOneGoodThenEmpty [rowGood] none).successCount = some 1 := by
  decide

/-- C6 amended: the write is parameterized with the `isbn` conflict key
and, under the spec-modelled conflict-ignore store, duplicates are
skipped (every existing row is kept, only collision-free rows are
appended and counted) without aborting the batch; but the run reports
success with the full submitted batch size, not the accepted
(non-conflicting) count. -/
theorem conflict_ignore_amended :
    (∀ existing batch : List BookRow, ∃ added,
      storeInsertIgnore existing batch = (existing ++ added, added.length) ∧
      ∀ a ∈ added, existing.any (fun e => e.isbn == a.isbn) = false) ∧
    (∀ (env : Env) (world : Nat → FetchOutcome) (existing rows : List BookRow)
      (offs : List Nat), missingKeys env = false →
      mainLoop world (numPages totalBooksToFetch booksPerPage) 0 [] =
        (offs, Except.ok rows) →
      rows ≠ [] →
      (runMain env world existing none).conflictKey = some "isbn" ∧
      (runMain env world existing none).storeAfter =
        (storeInsertIgnore existing rows).1 ∧
      (runMain env world existing none).acceptedCount =
        (storeInsertIgnore existing rows).2 ∧
      (runMain env world existing none).successCount = some rows.length) := by
  refine ⟨fun existing batch => storeInsertIgnore_spec batch existing, ?_⟩
  intro env world existing rows offs h hl hne
  rw [runMain_ok env world existing rows offs h hl hne]
  exact ⟨rfl, rfl, rfl, rfl⟩

/-- Witness for the amended C6: a clean one-record run reports the batch
size. -/
theorem conflict_ignore_amended_witness :
    (runMain envGood worldOneGoodThenEmpty [] none).successCount = some 1 :=
  (conflict_ignore_amended.2 envGood worldOneGoodThenEmpty [] [rowGood] [0, 40]
    (by decide) (by decide) (by decide)).2.2.2

end Populate
